import Mathlib

/-!
Verification of the Umadevi Pride finance backend core logic.

The development shallowly embeds the repository's pure logic:
* the aging calculator (extended-days and payment-totals computations
  repeated in app/api/v1/loans.py, outside_interest.py, vehicles.py,
  chits.py), and
* the data-access adapter's response/retry handling
  (app/database/connection.py).

Python floats carrying money amounts are modelled as rationals;
Python dicts parsed from store responses are modelled as typed rows;
exceptions are modelled with Except.
-/

namespace UPF

/-- Calendar dates, as Python's datetime.date (year, month, day). -/
structure Date where
  year : Nat
  month : Nat
  day : Nat
deriving DecidableEq, Repr

/-- Python date comparison: lexicographic on (year, month, day). -/
def date_lt (a b : Date) : Bool :=
  (a.year < b.year) ||
  (a.year == b.year && ((a.month < b.month) ||
    (a.month == b.month && a.day < b.day)))

/-- Leap year test of the proleptic Gregorian calendar, as Python's
calendar.isleap used by datetime. -/
def is_leap (y : Nat) : Bool :=
  (y % 4 == 0 && y % 100 != 0) || y % 400 == 0

/-- Days in the months strictly before month m of a non-leap year. -/
def days_before_month (m : Nat) : Nat :=
  [0, 31, 59, 90, 120, 151, 181, 212, 243, 273, 304, 334].getD (m - 1) 0

/-- Python date.toordinal: day number of the proleptic Gregorian
calendar, with 0001-01-01 = day 1. -/
def date_toordinal (d : Date) : Nat :=
  365 * (d.year - 1) + (d.year - 1) / 4 + (d.year - 1) / 400
    - (d.year - 1) / 100
    + days_before_month d.month
    + (if 2 < d.month && is_leap d.year then 1 else 0)
    + d.day

/-- Python date subtraction (a - b).days, as a signed day count. -/
def date_diff_days (a b : Date) : Int :=
  (date_toordinal a : Int) - (date_toordinal b : Int)

/-- date.replace(day=1): first day of the date's month. -/
def first_of_month (d : Date) : Date := { d with day := 1 }

/-- One iteration of the expected-end-date loop in
calculate_extended_days: advance to the first of the next month. -/
def month_step (d : Date) : Date :=
  if d.month == 12 then { d with year := d.year + 1, month := 1 }
  else { d with month := d.month + 1 }

/-- The loop `for _ in range(n)` applying month_step n times. -/
def add_months_iter (d : Date) : Nat → Date
  | 0 => d
  | n + 1 => month_step (add_months_iter d n)

/-- The if/elif frequency dispatch of calculate_extended_days:
the multiplier applied to months_diff, or none when the frequency is
none of monthly, bimonthly, quarterly (no else branch in the source). -/
def freq_factor (freq : String) : Option Nat :=
  if freq == "monthly" then some 1
  else if freq == "bimonthly" then some 2
  else if freq == "quarterly" then some 3
  else none

/-- Python exceptions relevant to the embedded code paths. -/
inductive PyExc where
  /-- expected_months read while unbound (unrecognized frequency). -/
  | unboundLocal : PyExc
deriving DecidableEq, Repr

/-- Body of calculate_extended_days (loans.py and outside_interest.py,
identical logic) before the enclosing try/except: closed records yield
no value, an unrecognized payment_frequency leaves expected_months
unbound and raises, otherwise the overrun in days is computed from the
whole-month difference, the frequency factor and the month loop. -/
def calculate_extended_days_core (is_closed : Bool) (start : Date)
    (freq : String) (today : Date) : Except PyExc (Option Int) :=
  if is_closed then Except.ok none
  else
    let months_diff : Int :=
      ((today.year : Int) - (start.year : Int)) * 12 +
        ((today.month : Int) - (start.month : Int))
    match freq_factor freq with
    | none => Except.error PyExc.unboundLocal
    | some k =>
      let expected_months : Int := months_diff * (k : Int)
      let expected_end := add_months_iter (first_of_month start) expected_months.toNat
      if date_lt expected_end today then
        Except.ok (some (date_diff_days today expected_end))
      else
        Except.ok (some 0)

/-- calculate_extended_days as exposed: the surrounding try/except
turns every raised exception into None. -/
def calculate_extended_days (is_closed : Bool) (start : Date)
    (freq : String) (today : Date) : Option Int :=
  match calculate_extended_days_core is_closed start freq today with
  | Except.ok v => v
  | Except.error _ => none

/-- Spec-side closed form: the first of the month that lies t calendar
months after month 1 of year 0, counting months linearly. -/
def months_to_first (t : Nat) : Date :=
  { year := t / 12, month := t % 12 + 1, day := 1 }

/-- Spec-side expected end date: starting from the first day of the
month of start, advance k calendar months. -/
def expected_end_spec (start : Date) (k : Nat) : Date :=
  months_to_first (start.year * 12 + (start.month - 1) + k)

theorem month_step_months_to_first (t : Nat) :
    month_step (months_to_first t) = months_to_first (t + 1) := by
  unfold month_step months_to_first
  split
  next h =>
    have h12 : t % 12 + 1 = 12 := by simpa using h
    simp only [Date.mk.injEq]
    exact ⟨by omega, by omega, trivial⟩
  next h =>
    have h12 : ¬ (t % 12 + 1 = 12) := by simpa using h
    simp only [Date.mk.injEq]
    exact ⟨by omega, by omega, trivial⟩

theorem add_months_iter_closed (y m : Nat) (hm1 : 1 ≤ m) (hm2 : m ≤ 12)
    (k : Nat) :
    add_months_iter (Date.mk y m 1) k = months_to_first (y * 12 + (m - 1) + k) := by
  induction k with
  | zero =>
    unfold add_months_iter months_to_first
    simp only [Date.mk.injEq]
    exact ⟨by omega, by omega, trivial⟩
  | succ n ih =>
    unfold add_months_iter
    rw [ih, month_step_months_to_first]
    rfl

theorem expected_end_code_eq (start today : Date) (k : Nat)
    (hm1 : 1 ≤ start.month) (hm2 : start.month ≤ 12)
    (hord : start.year * 12 + start.month ≤ today.year * 12 + today.month) :
    add_months_iter (first_of_month start)
        ((((today.year : Int) - (start.year : Int)) * 12 +
          ((today.month : Int) - (start.month : Int))) * (k : Int)).toNat
      = expected_end_spec start
          ((today.year * 12 + today.month - (start.year * 12 + start.month)) * k) := by
  have h1 : first_of_month start = Date.mk start.year start.month 1 := rfl
  rw [h1, add_months_iter_closed start.year start.month hm1 hm2]
  unfold expected_end_spec
  congr 1
  have hmd : ((today.year : Int) - (start.year : Int)) * 12 +
        ((today.month : Int) - (start.month : Int))
      = ((today.year * 12 + today.month - (start.year * 12 + start.month) : Nat) : Int) := by
    omega
  rw [hmd, ← Nat.cast_mul, Int.toNat_natCast]

/-- Claim C1: calculate_extended_days returns "not applicable" (None) for
every closed record regardless of dates; for a non-closed record with a
recognized payment_frequency it computes the whole-month difference
between today and the start date (ignoring day-of-month), multiplies by
the frequency factor (monthly x1, bimonthly x2, quarterly x3), advances
that many calendar months from the first day of the start date's month,
and returns the positive day overrun past that expected end date, else 0. -/
theorem extended_days_contract (is_closed : Bool) (start today : Date)
    (freq : String) (k : Nat)
    (hm1 : 1 ≤ start.month) (hm2 : start.month ≤ 12)
    (hord : start.year * 12 + start.month ≤ today.year * 12 + today.month) :
    (calculate_extended_days true start freq today = none) ∧
    (freq_factor freq = some k → is_closed = false →
      calculate_extended_days is_closed start freq today =
        some (if date_lt (expected_end_spec start
                ((today.year * 12 + today.month - (start.year * 12 + start.month)) * k))
                today
              then date_diff_days today (expected_end_spec start
                ((today.year * 12 + today.month - (start.year * 12 + start.month)) * k))
              else 0)) := by
  constructor
  · rfl
  · intro hf hc
    subst hc
    unfold calculate_extended_days calculate_extended_days_core
    rw [hf]
    simp only [Bool.false_eq_true, if_false,
      expected_end_code_eq start today k hm1 hm2 hord]
    by_cases hd : date_lt (expected_end_spec start
        ((today.year * 12 + today.month - (start.year * 12 + start.month)) * k))
        today = true <;>
      simp [hd]

theorem extended_days_contract_witness :
    1 ≤ (Date.mk 2024 1 15).month ∧
    calculate_extended_days false (Date.mk 2024 1 15) "monthly" (Date.mk 2024 3 20)
      = some 19 := by
  have h := (extended_days_contract false (Date.mk 2024 1 15) (Date.mk 2024 3 20)
      "monthly" 1 (by decide) (by decide) (by decide)).2 rfl rfl
  refine ⟨by decide, ?_⟩
  rw [h]
  decide

example :
    calculate_extended_days false (Date.mk 2024 1 1) "quarterly" (Date.mk 2024 2 1)
      = some 0 := by decide

example :
    calculate_extended_days true (Date.mk 2020 5 7) "monthly" (Date.mk 2024 3 20)
      = none := rfl

/-- Claim C5: on a non-closed record whose payment_frequency is not one
of monthly, bimonthly, quarterly, the source's if/elif chain leaves
expected_months unbound; the resulting exception is caught by the
enclosing try/except and silently turned into None ("not applicable"),
not an InvalidFrequency configuration error. -/
theorem unknown_frequency_swallowed :
    calculate_extended_days_core false (Date.mk 2024 1 15) "weekly" (Date.mk 2024 3 20)
      = Except.error PyExc.unboundLocal ∧
    calculate_extended_days false (Date.mk 2024 1 15) "weekly" (Date.mk 2024 3 20)
      = none := by
  exact ⟨rfl, rfl⟩

/-- A payment row as consumed by the aggregation code: only amount and
payment_type matter to the totals; amounts are modelled as rationals. -/
structure Payment where
  amount : ℚ
  payment_type : String
deriving DecidableEq, Repr

/-- calculate_payment_totals (loans.py and outside_interest.py,
identical): sum amounts of credit payments and of debit payments,
each via Python's sum over a filtered generator. -/
def calculate_payment_totals (ps : List Payment) : ℚ × ℚ :=
  (ps.foldl (fun acc p => if p.payment_type == "credit" then acc + p.amount else acc) 0,
   ps.foldl (fun acc p => if p.payment_type == "debit" then acc + p.amount else acc) 0)

/-- The vehicles enrichment (vehicles.py get_all_vehicles): total over
all payment amounts regardless of payment_type, and
pending_amount = max(0, principle_amount - total_payments). -/
def vehicle_payment_totals (principle : ℚ) (ps : List Payment) : ℚ × ℚ :=
  let total := ps.foldl (fun acc p => acc + p.amount) 0
  (total, max 0 (principle - total))

theorem foldl_filter_amount_sum (ps : List Payment) (t : String) (a : ℚ) :
    ps.foldl (fun acc p => if p.payment_type == t then acc + p.amount else acc) a
      = a + ((ps.filter (fun p => p.payment_type == t)).map Payment.amount).sum := by
  induction ps generalizing a with
  | nil => simp
  | cons p ps ih =>
    rw [List.foldl_cons, List.filter_cons]
    by_cases h : (p.payment_type == t) = true
    · rw [if_pos h, if_pos h, List.map_cons, List.sum_cons, ih]
      ring
    · rw [if_neg h, if_neg h, ih]

theorem foldl_amount_sum (ps : List Payment) (a : ℚ) :
    ps.foldl (fun acc p => acc + p.amount) a = a + (ps.map Payment.amount).sum := by
  induction ps generalizing a with
  | nil => simp
  | cons p ps ih =>
    rw [List.foldl_cons, ih, List.map_cons, List.sum_cons]
    ring

/-- Transport-level failures of the HTTP adapter. -/
inductive TransportErr where
  | network : TransportErr
  | timeout : TransportErr
  | http : Nat → TransportErr
deriving DecidableEq, Repr

/-- A parsed store response body: a JSON list of rows, or a JSON object
(none modelling the empty object from an empty response body). -/
inductive StoreJson (α : Type) where
  | jlist : List α → StoreJson α
  | jdict : Option α → StoreJson α
deriving DecidableEq, Repr

/-- DatabaseManager.get_vehicles: the try/except returns the fetched
rows when the body is a list, and [] both on a non-list body and on any
raised exception. -/
def get_vehicles_result {α : Type} (fetch : Except TransportErr (StoreJson α)) :
    List α :=
  match fetch with
  | Except.ok (StoreJson.jlist rs) => rs
  | Except.ok (StoreJson.jdict _) => []
  | Except.error _ => []

/-- DatabaseManager.get_outside_interest: identical swallow-to-empty
shape as get_vehicles. -/
def get_outside_interest_result {α : Type}
    (fetch : Except TransportErr (StoreJson α)) : List α :=
  match fetch with
  | Except.ok (StoreJson.jlist rs) => rs
  | Except.ok (StoreJson.jdict _) => []
  | Except.error _ => []

/-- The calculate_payment_totals helper including its try/except, which
returns (0.0, 0.0) when fetching the payments raises. -/
def calculate_payment_totals_api
    (fetch : Except TransportErr (List Payment)) : ℚ × ℚ :=
  match fetch with
  | Except.ok ps => calculate_payment_totals ps
  | Except.error _ => (0, 0)

/-- Claim C6 counterexample: a transport failure is converted into the
default empty/zero result, indistinguishable from a genuinely empty
store: the claim that errors are never swallowed into defaults fails. -/
theorem errors_swallowed_counterexample :
    get_vehicles_result (α := Payment) (Except.error TransportErr.network) = [] ∧
    get_vehicles_result (α := Payment) (Except.ok (StoreJson.jlist [])) = [] ∧
    get_outside_interest_result (α := Payment) (Except.error TransportErr.timeout) = [] ∧
    calculate_payment_totals_api (Except.error TransportErr.network) = (0, 0) ∧
    calculate_payment_totals_api (Except.ok []) = (0, 0) := by
  exact ⟨rfl, rfl, rfl, rfl, rfl⟩

/-- Claim C6 (amended): list fetch failures and malformed (non-list)
bodies are swallowed into [], and payment-totals failures into (0, 0);
only the ok paths return the fetched data, so zero/empty results do not
distinguish errors from a genuinely empty store. -/
theorem errors_swallowed_to_defaults {α : Type} (e : TransportErr)
    (rs : List α) (r : Option α) (ps : List Payment) :
    get_vehicles_result (Except.error e) = ([] : List α) ∧
    get_outside_interest_result (Except.error e) = ([] : List α) ∧
    get_vehicles_result (Except.ok (StoreJson.jlist rs)) = rs ∧
    get_vehicles_result (Except.ok (StoreJson.jdict r)) = ([] : List α) ∧
    get_outside_interest_result (Except.ok (StoreJson.jlist rs)) = rs ∧
    calculate_payment_totals_api (Except.error e) = (0, 0) ∧
    calculate_payment_totals_api (Except.ok ps) = calculate_payment_totals ps := by
  exact ⟨rfl, rfl, rfl, rfl, rfl, rfl, rfl⟩

/-- Claim C7 counterexample: the vehicles enrichment does not implement
the credit/debit split. On the spec's own example list it returns
total_payments = 140 (all amounts summed) and pending_amount = 0
(max(0, principle - total) with principle 0), not (100, 40). -/
theorem vehicle_totals_counterexample :
    vehicle_payment_totals 0
        [Payment.mk 100 "credit", Payment.mk 40 "debit"] = (140, 0) ∧
    vehicle_payment_totals 0
        [Payment.mk 100 "credit", Payment.mk 40 "debit"] ≠ (100, 40) := by
  constructor
  · show ((0 : ℚ) + 100 + 40, max 0 (0 - ((0 : ℚ) + 100 + 40))) = (140, 0)
    norm_num
  · intro hcontra
    have h1 : ((0 : ℚ) + 100 + 40) = 100 := congrArg Prod.fst hcontra
    norm_num at h1

/-- Claim C7 (amended): calculate_payment_totals, used for the loans and
outside-interest enriched fields, returns the sum of amounts over credit
payments and the sum over debit payments ((0, 0) for the empty list,
pure); the vehicles enrichment instead sums all amounts regardless of
payment_type and sets pending_amount = max(0, principle - total). -/
theorem payment_totals_contract (ps : List Payment) (principle : ℚ) :
    calculate_payment_totals ps =
      (((ps.filter (fun p => p.payment_type == "credit")).map Payment.amount).sum,
       ((ps.filter (fun p => p.payment_type == "debit")).map Payment.amount).sum) ∧
    calculate_payment_totals [] = (0, 0) ∧
    vehicle_payment_totals principle ps =
      ((ps.map Payment.amount).sum,
       max 0 (principle - (ps.map Payment.amount).sum)) := by
  refine ⟨?_, rfl, ?_⟩
  · unfold calculate_payment_totals
    rw [foldl_filter_amount_sum, foldl_filter_amount_sum]
    simp
  · unfold vehicle_payment_totals
    rw [foldl_amount_sum]
    simp

/-- Sum of all payment amounts in the chit profit calculation
(sum(payment["amount"] for payment in payments)). -/
def chit_total_payments (ps : List Payment) : ℚ :=
  ps.foldl (fun acc p => acc + p.amount) 0

/-- expected_total = monthly_amount * len(payments) if payments else 0. -/
def chit_expected_total (monthly : ℚ) (ps : List Payment) : ℚ :=
  if ps.isEmpty then 0 else monthly * (ps.length : ℚ)

/-- The derived fields attached to a chit by get_chits / get_chit. -/
structure ChitProfitFields where
  total_payments : ℚ
  total_profit : ℚ
  profit_percentage : ℚ
  payments_count : Nat
  collected_amount : ℚ
  net_profit : ℚ
  net_profit_percentage : ℚ
deriving DecidableEq, Repr

/-- The chit profit calculation of chits.py get_chits (and get_chit,
identical): totals, clamped total_profit, guarded percentages, and the
collected analysis when is_collected. collected_amount is an optional
column; chit.get("collected_amount", 0) or 0 defaults it to 0. -/
def chit_profit (monthly_amount total_amount : ℚ) (collected_amount : Option ℚ)
    (is_collected : Bool) (ps : List Payment) : ChitProfitFields :=
  let total_payments := chit_total_payments ps
  let expected_total := chit_expected_total monthly_amount ps
  let total_profit := if 0 < expected_total then expected_total - total_payments else 0
  let profit_percentage :=
    if 0 < total_amount then (total_profit / total_amount) * 100 else 0
  let collected := collected_amount.getD 0
  let net_profit := if is_collected then collected - total_payments else 0
  let net_profit_percentage :=
    if 0 < total_payments ∧ is_collected = true
    then (net_profit / total_payments) * 100 else 0
  { total_payments := total_payments
    total_profit := total_profit
    profit_percentage := profit_percentage
    payments_count := ps.length
    collected_amount := collected
    net_profit := net_profit
    net_profit_percentage := net_profit_percentage }

/-- Claim C8 counterexample: total_profit is not the unclamped
difference expected_total - total_payments. With monthly_amount = 0 and
one payment of 100, expected_total = 0 is not > 0, so the code yields
total_profit = 0 where the unclamped difference is -100. -/
theorem chit_profit_clamp_counterexample :
    (chit_profit 0 0 none false [Payment.mk 100 "credit"]).total_profit = 0 ∧
    chit_expected_total 0 [Payment.mk 100 "credit"]
        - chit_total_payments [Payment.mk 100 "credit"] = -100 ∧
    (chit_profit 0 0 none false [Payment.mk 100 "credit"]).total_profit
        ≠ chit_expected_total 0 [Payment.mk 100 "credit"]
          - chit_total_payments [Payment.mk 100 "credit"] := by
  refine ⟨?_, ?_, ?_⟩ <;>
    norm_num [chit_profit, chit_total_payments, chit_expected_total]

theorem chit_expected_total_eq (monthly : ℚ) (ps : List Payment) :
    chit_expected_total monthly ps = monthly * (ps.length : ℚ) := by
  unfold chit_expected_total
  by_cases h : ps.isEmpty
  · rw [if_pos h]
    rw [List.isEmpty_iff] at h
    subst h
    simp
  · rw [if_neg h]

/-- Claim C8 (amended): total_payments is the sum of all payment
amounts; expected_total = monthly_amount * payment count (also for the
empty list); total_profit = expected_total - total_payments only when
expected_total > 0, and 0 otherwise (clamped, unlike the claim);
profit_percentage = 100 * total_profit / total_amount when
total_amount > 0, else 0; when is_collected, net_profit =
collected_amount - total_payments, and net_profit_percentage =
100 * net_profit / total_payments when total_payments > 0, else 0; both
divisions only happen under a positivity guard. -/
theorem chit_profit_contract (monthly total : ℚ) (collected : Option ℚ)
    (is_collected : Bool) (ps : List Payment) :
    (chit_profit monthly total collected is_collected ps).total_payments
        = (ps.map Payment.amount).sum ∧
    chit_expected_total monthly ps = monthly * (ps.length : ℚ) ∧
    (chit_profit monthly total collected is_collected ps).total_profit
        = (if 0 < monthly * (ps.length : ℚ)
           then monthly * (ps.length : ℚ) - (ps.map Payment.amount).sum else 0) ∧
    (chit_profit monthly total collected is_collected ps).profit_percentage
        = (if 0 < total
           then 100 * (chit_profit monthly total collected is_collected ps).total_profit
                  / total
           else 0) ∧
    (chit_profit monthly total collected is_collected ps).net_profit
        = (if is_collected
           then collected.getD 0 - (ps.map Payment.amount).sum else 0) ∧
    (chit_profit monthly total collected is_collected ps).net_profit_percentage
        = (if 0 < (ps.map Payment.amount).sum ∧ is_collected = true
           then 100 * (chit_profit monthly total collected is_collected ps).net_profit
                  / (ps.map Payment.amount).sum
           else 0) := by
  have hsum : chit_total_payments ps = (ps.map Payment.amount).sum := by
    unfold chit_total_payments
    rw [foldl_amount_sum]
    simp
  constructor
  · simp [chit_profit, hsum]
  constructor
  · exact chit_expected_total_eq monthly ps
  constructor
  · simp [chit_profit, hsum, chit_expected_total_eq]
  constructor
  · simp only [chit_profit, hsum, chit_expected_total_eq]
    by_cases h : 0 < total
    · rw [if_pos h, if_pos h]
      ring
    · rw [if_neg h, if_neg h]
  constructor
  · simp [chit_profit, hsum]
  · simp only [chit_profit, hsum]
    by_cases h : 0 < (ps.map Payment.amount).sum ∧ is_collected = true
    · rw [if_pos h, if_pos h]
      ring
    · rw [if_neg h, if_neg h]

example :
    (chit_profit 1000 12000 none false
        [Payment.mk 900 "credit", Payment.mk 900 "credit", Payment.mk 900 "credit"]).total_payments
      = 2700 ∧
    (chit_profit 1000 12000 none false
        [Payment.mk 900 "credit", Payment.mk 900 "credit", Payment.mk 900 "credit"]).total_profit
      = 300 ∧
    (chit_profit 1000 12000 none false
        [Payment.mk 900 "credit", Payment.mk 900 "credit", Payment.mk 900 "credit"]).profit_percentage
      = 5 / 2 := by
  refine ⟨?_, ?_, ?_⟩ <;>
    norm_num [chit_profit, chit_total_payments, chit_expected_total]

/-- Outcome of one transport attempt inside _make_request: either an
exception raised while issuing the request, or an HTTP response with a
status code and parsed body. -/
inductive AttemptOutcome (α : Type) where
  | exc : TransportErr → AttemptOutcome α
  | resp : Nat → α → AttemptOutcome α
deriving DecidableEq, Repr

/-- The inner try block of one attempt: a response with status >= 400
calls raise_for_status (raising an HTTP error), otherwise the parsed
body is returned; a raised transport exception propagates. -/
def attempt_once {α : Type} (o : AttemptOutcome α) : Except TransportErr α :=
  match o with
  | AttemptOutcome.exc e => Except.error e
  | AttemptOutcome.resp s b =>
      if 400 ≤ s then Except.error (TransportErr.http s) else Except.ok b

/-- Observable behaviour of one _make_request call: the returned body or
the finally-raised exception, the number of attempts issued, and the
backoff sleeps (in milliseconds) performed between attempts. -/
structure ReqTrace (α : Type) where
  result : Except TransportErr α
  attempts : Nat
  sleeps_ms : List Nat
deriving Repr

/-- The attempt loop of _make_request: any exception of an attempt that
is not the last one triggers asyncio.sleep(0.5 * 2 ** attempt) and a
retry; the last attempt's exception is re-raised. -/
def make_request_go {α : Type} (transport : Nat → AttemptOutcome α) :
    Nat → Nat → ReqTrace α
  | attempt, 0 =>
      { result := attempt_once (transport attempt)
        attempts := attempt + 1
        sleeps_ms := [] }
  | attempt, rem + 1 =>
      match attempt_once (transport attempt) with
      | Except.ok b => { result := Except.ok b, attempts := attempt + 1, sleeps_ms := [] }
      | Except.error _ =>
          let t := make_request_go transport (attempt + 1) rem
          { result := t.result
            attempts := t.attempts
            sleeps_ms := 500 * 2 ^ attempt :: t.sleeps_ms }

/-- DatabaseManager._make_request with its default max_retries = 2:
attempts 0 .. max_retries, so three attempts in total. -/
def make_request {α : Type} (transport : Nat → AttemptOutcome α)
    (max_retries : Nat := 2) : ReqTrace α :=
  make_request_go transport 0 max_retries

theorem make_request_go_succ_ok {α : Type} (t : Nat → AttemptOutcome α)
    (attempt rem : Nat) (b : α) (h : attempt_once (t attempt) = Except.ok b) :
    make_request_go t attempt (rem + 1) =
      { result := Except.ok b, attempts := attempt + 1, sleeps_ms := [] } := by
  unfold make_request_go
  rw [h]

theorem make_request_go_succ_err {α : Type} (t : Nat → AttemptOutcome α)
    (attempt rem : Nat) (e : TransportErr)
    (h : attempt_once (t attempt) = Except.error e) :
    make_request_go t attempt (rem + 1) =
      { result := (make_request_go t (attempt + 1) rem).result
        attempts := (make_request_go t (attempt + 1) rem).attempts
        sleeps_ms := 500 * 2 ^ attempt :: (make_request_go t (attempt + 1) rem).sleeps_ms } := by
  conv_lhs => rw [make_request_go]
  rw [h]

theorem make_request_go_attempts_le {α : Type} (t : Nat → AttemptOutcome α)
    (rem : Nat) : ∀ attempt : Nat,
    (make_request_go t attempt rem).attempts ≤ attempt + rem + 1 := by
  induction rem with
  | zero =>
    intro attempt
    show attempt + 1 ≤ attempt + 0 + 1
    omega
  | succ n ih =>
    intro attempt
    cases h : attempt_once (t attempt) with
    | ok b =>
      rw [make_request_go_succ_ok t attempt n b h]
      show attempt + 1 ≤ attempt + (n + 1) + 1
      omega
    | error e =>
      rw [make_request_go_succ_err t attempt n e h]
      show (make_request_go t (attempt + 1) n).attempts ≤ attempt + (n + 1) + 1
      have := ih (attempt + 1)
      omega

/-- Claim C3: a transport call raising transient errors on the first two
attempts and succeeding on the third returns the successful body instead
of raising; the backoff sleeps are 500 ms then 1000 ms (base 0.5 s,
doubling), and in general at most max_retries + 1 = 3 attempts occur. -/
theorem retry_succeeds_on_third_attempt {α : Type}
    (transport : Nat → AttemptOutcome α) (e0 e1 : TransportErr) (b : α)
    (h0 : transport 0 = AttemptOutcome.exc e0)
    (h1 : transport 1 = AttemptOutcome.exc e1)
    (h2 : attempt_once (transport 2) = Except.ok b) :
    make_request transport =
      { result := Except.ok b, attempts := 3, sleeps_ms := [500, 1000] } ∧
    ∀ t : Nat → AttemptOutcome α, (make_request t).attempts ≤ 3 := by
  constructor
  · have g0 : attempt_once (transport 0) = Except.error e0 := by
      rw [h0]
      rfl
    have g1 : attempt_once (transport 1) = Except.error e1 := by
      rw [h1]
      rfl
    have s2 : make_request_go transport 2 0 =
        { result := Except.ok b, attempts := 3, sleeps_ms := [] } := by
      show ({ result := attempt_once (transport 2), attempts := 2 + 1,
              sleeps_ms := [] } : ReqTrace α) = _
      rw [h2]
    have s1 : make_request_go transport 1 (0 + 1) =
        { result := Except.ok b, attempts := 3, sleeps_ms := [1000] } := by
      rw [make_request_go_succ_err transport 1 0 e1 g1]
      show ({ result := (make_request_go transport 2 0).result,
              attempts := (make_request_go transport 2 0).attempts,
              sleeps_ms := 500 * 2 ^ 1 :: (make_request_go transport 2 0).sleeps_ms }
            : ReqTrace α) = _
      rw [s2]
      rfl
    have s0 : make_request_go transport 0 (1 + 1) =
        { result := Except.ok b, attempts := 3, sleeps_ms := [500, 1000] } := by
      rw [make_request_go_succ_err transport 0 1 e0 g0]
      show ({ result := (make_request_go transport 1 1).result,
              attempts := (make_request_go transport 1 1).attempts,
              sleeps_ms := 500 * 2 ^ 0 :: (make_request_go transport 1 1).sleeps_ms }
            : ReqTrace α) = _
      have s1' : make_request_go transport 1 1 =
          { result := Except.ok b, attempts := 3, sleeps_ms := [1000] } := s1
      rw [s1']
      rfl
    exact s0
  · intro t
    exact make_request_go_attempts_le t 2 0

theorem retry_third_attempt_witness :
    make_request (fun n => if n ≤ 1 then AttemptOutcome.exc TransportErr.network
        else AttemptOutcome.resp 200 (7 : Nat)) =
      { result := Except.ok 7, attempts := 3, sleeps_ms := [500, 1000] } := by
  exact (retry_succeeds_on_third_attempt
    (fun n => if n ≤ 1 then AttemptOutcome.exc TransportErr.network
        else AttemptOutcome.resp 200 (7 : Nat))
    TransportErr.network TransportErr.network 7 rfl rfl rfl).1

/-- Claim C4 counterexample: a store that always answers 400 is retried
like a network failure: _make_request issues all three attempts and two
backoff sleeps before propagating the HTTP error, instead of propagating
it immediately with no retry. -/
theorem http_400_retried_counterexample :
    make_request (fun _ => AttemptOutcome.resp 400 (0 : Nat)) =
      { result := Except.error (TransportErr.http 400), attempts := 3,
        sleeps_ms := [500, 1000] } ∧
    (make_request (fun _ => AttemptOutcome.resp 400 (0 : Nat))).attempts ≠ 1 ∧
    (make_request (fun _ => AttemptOutcome.resp 400 (0 : Nat))).sleeps_ms ≠ [] := by
  refine ⟨rfl, by decide, by decide⟩

/-- Claim C4 (amended): a 4xx (or any >= 400) response raises inside the
attempt and is caught by the same except handler as network errors, so
it is retried with the same exponential backoff and the error propagates
only after all max_retries + 1 = 3 attempts have failed. -/
theorem http_4xx_retried {α : Type} (s : Nat) (body : α) (hs : 400 ≤ s) :
    make_request (fun _ => AttemptOutcome.resp s body) =
      { result := Except.error (TransportErr.http s), attempts := 3,
        sleeps_ms := [500, 1000] } := by
  have g : ∀ n : Nat,
      attempt_once ((fun _ => AttemptOutcome.resp s body) n)
        = Except.error (TransportErr.http s) := by
    intro n
    show (if 400 ≤ s then Except.error (TransportErr.http s) else Except.ok body) = _
    rw [if_pos hs]
  have s2 : make_request_go (fun _ => AttemptOutcome.resp s body) 2 0 =
      { result := Except.error (TransportErr.http s), attempts := 3, sleeps_ms := [] } := by
    show ({ result := attempt_once ((fun _ => AttemptOutcome.resp s body) 2),
            attempts := 2 + 1, sleeps_ms := [] } : ReqTrace α) = _
    rw [g 2]
  have s1 : make_request_go (fun _ => AttemptOutcome.resp s body) 1 (0 + 1) =
      { result := Except.error (TransportErr.http s), attempts := 3,
        sleeps_ms := [1000] } := by
    rw [make_request_go_succ_err (fun _ => AttemptOutcome.resp s body) 1 0 _ (g 1)]
    show ({ result := (make_request_go (fun _ => AttemptOutcome.resp s body) 2 0).result,
            attempts := (make_request_go (fun _ => AttemptOutcome.resp s body) 2 0).attempts,
            sleeps_ms := 500 * 2 ^ 1 ::
              (make_request_go (fun _ => AttemptOutcome.resp s body) 2 0).sleeps_ms }
          : ReqTrace α) = _
    rw [s2]
    rfl
  have s0 : make_request_go (fun _ => AttemptOutcome.resp s body) 0 (1 + 1) =
      { result := Except.error (TransportErr.http s), attempts := 3,
        sleeps_ms := [500, 1000] } := by
    rw [make_request_go_succ_err (fun _ => AttemptOutcome.resp s body) 0 1 _ (g 0)]
    show ({ result := (make_request_go (fun _ => AttemptOutcome.resp s body) 1 1).result,
            attempts := (make_request_go (fun _ => AttemptOutcome.resp s body) 1 1).attempts,
            sleeps_ms := 500 * 2 ^ 0 ::
              (make_request_go (fun _ => AttemptOutcome.resp s body) 1 1).sleeps_ms }
          : ReqTrace α) = _
    have s1' : make_request_go (fun _ => AttemptOutcome.resp s body) 1 1 =
        { result := Except.error (TransportErr.http s), attempts := 3,
          sleeps_ms := [1000] } := s1
    rw [s1']
    rfl
  exact s0

theorem http_4xx_retried_witness :
    400 ≤ 422 ∧
    make_request (fun _ => AttemptOutcome.resp 422 (0 : Nat)) =
      { result := Except.error (TransportErr.http 422), attempts := 3,
        sleeps_ms := [500, 1000] } :=
  ⟨by decide, http_4xx_retried 422 (0 : Nat) (by decide)⟩

/-- The payment fields the API passes to create_payment. -/
structure PaymentData where
  source_type : String
  source_id : Int
  payment_type : String
  payment_date : String
  amount : ℚ
  description : String
  payment_status : String
deriving DecidableEq, Repr

/-- A payment row as stored (the shape create_payment returns). -/
structure PaymentRow where
  id : Int
  source_type : String
  source_id : Int
  payment_type : String
  payment_date : String
  amount : ℚ
  description : String
  payment_status : String
  created_at : String
  updated_at : String
deriving DecidableEq, Repr

/-- What create_payment hands back to its caller on a non-raising store
write: a row, or the bare empty object of the final else branch. -/
inductive CreateResult where
  | row : PaymentRow → CreateResult
  | emptyObj : CreateResult
deriving DecidableEq, Repr

/-- DatabaseManager.create_payment response handling: a non-empty list
yields its first row; a non-empty dict yields itself; an empty dict
(empty response body) yields a locally fabricated row whose id is the
integer placeholder 0 and whose timestamps come from the local clock;
an empty list yields the empty object. No re-fetch happens. -/
def create_payment (pd : PaymentData) (now : String)
    (result : StoreJson PaymentRow) : CreateResult :=
  match result with
  | StoreJson.jlist (r :: _) => CreateResult.row r
  | StoreJson.jdict (some r) => CreateResult.row r
  | StoreJson.jdict none =>
      CreateResult.row
        { id := 0
          source_type := pd.source_type
          source_id := pd.source_id
          payment_type := pd.payment_type
          payment_date := pd.payment_date
          amount := pd.amount
          description := pd.description
          payment_status := pd.payment_status
          created_at := now
          updated_at := now }
  | StoreJson.jlist [] => CreateResult.emptyObj

/-- Claim C2: when the store write succeeds but returns an empty body,
create_payment silently returns a record with the placeholder id 0 built
from the request data; it performs no re-fetch and raises no
write-verification failure. -/
theorem create_payment_placeholder_id :
    create_payment
        (PaymentData.mk "vehicle" 1 "credit" "2024-02-01" 100 "" "PAID")
        "2024-02-01T00:00:00"
        (StoreJson.jdict none)
      = CreateResult.row
          (PaymentRow.mk 0 "vehicle" 1 "credit" "2024-02-01" 100 "" "PAID"
            "2024-02-01T00:00:00" "2024-02-01T00:00:00") := rfl

/-- An HTTP error response raised by an API endpoint. -/
structure HErr where
  status_code : Nat
  detail : String
deriving DecidableEq, Repr

/-- payments.py update_payment: look the payment up in the full payment
list; absent ids get 404, and for every existing payment the endpoint
unconditionally raises 501 Not Implemented (the computed update_data is
never used). -/
def update_payment_endpoint (payments : List PaymentRow) (payment_id : Int) :
    Except HErr PaymentRow :=
  match payments.find? (fun p => p.id == payment_id) with
  | none => Except.error (HErr.mk 404 "Payment not found")
  | some _ => Except.error (HErr.mk 501 "Payment update not implemented yet")

/-- payments.py delete_payment: same shape; existing payments get
501 Not Implemented. -/
def delete_payment_endpoint (payments : List PaymentRow) (payment_id : Int) :
    Except HErr String :=
  match payments.find? (fun p => p.id == payment_id) with
  | none => Except.error (HErr.mk 404 "Payment not found")
  | some _ => Except.error (HErr.mk 501 "Payment deletion not implemented yet")

/-- Claim C9 counterexample: for an existing payment (id 1 present), the
update endpoint returns a 501 error rather than the updated record, and
the delete endpoint returns a 501 error rather than success. -/
theorem payment_update_delete_counterexample :
    update_payment_endpoint
        [PaymentRow.mk 1 "vehicle" 1 "credit" "2024-02-01" 100 "" "PAID" "t" "t"] 1
      = Except.error (HErr.mk 501 "Payment update not implemented yet") ∧
    delete_payment_endpoint
        [PaymentRow.mk 1 "vehicle" 1 "credit" "2024-02-01" 100 "" "PAID" "t" "t"] 1
      = Except.error (HErr.mk 501 "Payment deletion not implemented yet") :=
  ⟨rfl, rfl⟩

/-- Claim C9 (amended): the payments update and delete endpoints verify
existence (404 when the id is absent) but never perform the operation:
for every existing payment they fail with 501 Not Implemented; update
and delete are not part of the CRUD surface actually offered for
payments. -/
theorem payment_update_delete_contract (payments : List PaymentRow) (pid : Int) :
    ((payments.find? (fun p => p.id == pid)).isSome = true →
      update_payment_endpoint payments pid
          = Except.error (HErr.mk 501 "Payment update not implemented yet") ∧
      delete_payment_endpoint payments pid
          = Except.error (HErr.mk 501 "Payment deletion not implemented yet")) ∧
    (payments.find? (fun p => p.id == pid) = none →
      update_payment_endpoint payments pid
          = Except.error (HErr.mk 404 "Payment not found") ∧
      delete_payment_endpoint payments pid
          = Except.error (HErr.mk 404 "Payment not found")) := by
  constructor
  · intro hsome
    rw [Option.isSome_iff_exists] at hsome
    obtain ⟨p, hp⟩ := hsome
    unfold update_payment_endpoint delete_payment_endpoint
    rw [hp]
    exact ⟨rfl, rfl⟩
  · intro hnone
    unfold update_payment_endpoint delete_payment_endpoint
    rw [hnone]
    exact ⟨rfl, rfl⟩

theorem payment_update_delete_contract_witness :
    update_payment_endpoint
        [PaymentRow.mk 2 "loan" 3 "debit" "2024-03-01" 50 "" "PAID" "t" "t"] 2
      = Except.error (HErr.mk 501 "Payment update not implemented yet") ∧
    delete_payment_endpoint
        [PaymentRow.mk 2 "loan" 3 "debit" "2024-03-01" 50 "" "PAID" "t" "t"] 2
      = Except.error (HErr.mk 501 "Payment deletion not implemented yet") :=
  (payment_update_delete_contract
    [PaymentRow.mk 2 "loan" 3 "debit" "2024-03-01" 50 "" "PAID" "t" "t"] 2).1 rfl

/-- A chit row as stored (the fields the collect flow reads or writes). -/
structure ChitRow where
  id : Int
  chit_name : String
  is_closed : Bool
  is_collected : Bool
  collected_amount : Option ℚ
  collected_date : Option String
  deleted_at : Option String
deriving DecidableEq, Repr

/-- DatabaseManager.get_chit_by_id: GET chits filtered by id=eq.{id} and
deleted_at=is.null, returning the first row of the result list, if any. -/
def get_chit_by_id (chits : List ChitRow) (chit_id : Int) : Option ChitRow :=
  (chits.filter (fun c => c.id == chit_id && c.deleted_at.isNone)).head?

/-- The row update of DatabaseManager.collect_chit's PATCH on
chits?id=eq.{id}: set is_collected and stamp the amount and date. -/
def collect_upd (chit_id : Int) (amt : ℚ) (cdate : String) (c : ChitRow) : ChitRow :=
  if c.id == chit_id then
    { c with is_collected := true, collected_amount := some amt,
             collected_date := some cdate }
  else c

/-- DatabaseManager.collect_chit: the PATCH applies the update to every
row matching id=eq.{chit_id}. -/
def collect_chit_db (chits : List ChitRow) (chit_id : Int) (amt : ℚ)
    (cdate : String) : List ChitRow :=
  chits.map (collect_upd chit_id amt cdate)

/-- chits.py collect_chit endpoint: 404 when the chit is not found,
400 "Chit is already collected" when is_collected is already set (no
write issued, store untouched), otherwise the patch is applied and a
success message returned. The store state is threaded explicitly. -/
def collect_chit_endpoint (chits : List ChitRow) (chit_id : Int) (amt : ℚ)
    (cdate : String) : Except HErr String × List ChitRow :=
  match get_chit_by_id chits chit_id with
  | none => (Except.error (HErr.mk 404 "Chit not found"), chits)
  | some c =>
    if c.is_collected then
      (Except.error (HErr.mk 400 "Chit is already collected"), chits)
    else
      (Except.ok "Chit collected successfully",
       collect_chit_db chits chit_id amt cdate)

theorem filter_collect_comm (chit_id : Int) (amt : ℚ) (cdate : String)
    (chits : List ChitRow) :
    (chits.map (collect_upd chit_id amt cdate)).filter
        (fun c => c.id == chit_id && c.deleted_at.isNone)
      = (chits.filter (fun c => c.id == chit_id && c.deleted_at.isNone)).map
          (collect_upd chit_id amt cdate) := by
  induction chits with
  | nil => rfl
  | cons c cs ih =>
    rw [List.map_cons, List.filter_cons, List.filter_cons]
    have hpred : ((collect_upd chit_id amt cdate c).id == chit_id &&
          (collect_upd chit_id amt cdate c).deleted_at.isNone)
        = (c.id == chit_id && c.deleted_at.isNone) := by
      unfold collect_upd
      by_cases hid : (c.id == chit_id) = true
      · rw [if_pos hid]
      · rw [if_neg hid]
    rw [hpred]
    by_cases h : (c.id == chit_id && c.deleted_at.isNone) = true
    · rw [if_pos h, if_pos h, List.map_cons, ih]
    · rw [if_neg h, if_neg h, ih]

theorem get_chit_by_id_collect (chits : List ChitRow) (chit_id : Int)
    (amt : ℚ) (cdate : String) :
    get_chit_by_id (collect_chit_db chits chit_id amt cdate) chit_id
      = (get_chit_by_id chits chit_id).map (collect_upd chit_id amt cdate) := by
  unfold get_chit_by_id collect_chit_db
  rw [filter_collect_comm]
  cases chits.filter (fun c => c.id == chit_id && c.deleted_at.isNone) with
  | nil => rfl
  | cons a l => rfl

/-- Claim C10: when the chit identified by chit_id is found and already
has is_collected = true, the collect endpoint fails with 400 "Chit is
already collected" and issues no write (the store is returned
unchanged); and when the chit is not yet collected, a successful collect
marks it collected, so a second collect on the resulting store fails
with the same 400 and leaves that store unchanged: collection succeeds
at most once per chit. -/
theorem collect_chit_at_most_once (chits : List ChitRow) (chit_id : Int)
    (amt amt2 : ℚ) (cdate cdate2 : String) (c : ChitRow)
    (hfind : get_chit_by_id chits chit_id = some c) :
    (c.is_collected = true →
      collect_chit_endpoint chits chit_id amt cdate
        = (Except.error (HErr.mk 400 "Chit is already collected"), chits)) ∧
    (c.is_collected = false →
      collect_chit_endpoint chits chit_id amt cdate
        = (Except.ok "Chit collected successfully",
           collect_chit_db chits chit_id amt cdate) ∧
      collect_chit_endpoint (collect_chit_db chits chit_id amt cdate)
          chit_id amt2 cdate2
        = (Except.error (HErr.mk 400 "Chit is already collected"),
           collect_chit_db chits chit_id amt cdate)) := by
  have hpredc : (c.id == chit_id && c.deleted_at.isNone) = true := by
    unfold get_chit_by_id at hfind
    cases hfl : chits.filter (fun x => x.id == chit_id && x.deleted_at.isNone) with
    | nil =>
      rw [hfl] at hfind
      exact absurd hfind (by simp)
    | cons a l =>
      rw [hfl] at hfind
      have ha : a = c := by simpa using hfind
      have hmem : a ∈ chits.filter (fun x => x.id == chit_id && x.deleted_at.isNone) := by
        rw [hfl]
        exact List.mem_cons_self a l
      rw [← ha]
      exact (List.mem_filter.mp hmem).2
  have hid : (c.id == chit_id) = true := by
    rcases Bool.and_eq_true_iff.mp hpredc with ⟨h1, _⟩
    exact h1
  constructor
  · intro hcol
    unfold collect_chit_endpoint
    simp only [hfind]
    rw [if_pos hcol]
  · intro hcol
    have h1 : collect_chit_endpoint chits chit_id amt cdate
        = (Except.ok "Chit collected successfully",
           collect_chit_db chits chit_id amt cdate) := by
      unfold collect_chit_endpoint
      simp only [hfind]
      rw [if_neg (by rw [hcol]; exact Bool.false_ne_true)]
    refine ⟨h1, ?_⟩
    have h2 : get_chit_by_id (collect_chit_db chits chit_id amt cdate) chit_id
        = some (collect_upd chit_id amt cdate c) := by
      rw [get_chit_by_id_collect, hfind]
      rfl
    have h3 : (collect_upd chit_id amt cdate c).is_collected = true := by
      unfold collect_upd
      rw [if_pos hid]
    unfold collect_chit_endpoint
    simp only [h2]
    rw [if_pos h3]

theorem collect_chit_at_most_once_witness :
    collect_chit_endpoint
        [ChitRow.mk 1 "chit-a" false true (some 5) (some "2024-01-01") none]
        1 9 "2024-06-01"
      = (Except.error (HErr.mk 400 "Chit is already collected"),
         [ChitRow.mk 1 "chit-a" false true (some 5) (some "2024-01-01") none]) :=
  (collect_chit_at_most_once
    [ChitRow.mk 1 "chit-a" false true (some 5) (some "2024-01-01") none]
    1 9 9 "2024-06-01" "2024-06-01"
    (ChitRow.mk 1 "chit-a" false true (some 5) (some "2024-01-01") none)
    rfl).1 rfl

end UPF
